import Mathlib

/-!
Shallow embedding of `src/dz_python.py` (supplier/product/order ledger with
order-total computation, order-number generation, order listing and ODT
report export), together with theorems settling the specification claims.

Python floats are modelled as `ℚ` (every arithmetic operation performed by
the program on the sample magnitudes is exact in binary floating point, and
the program only multiplies a price by an integer quantity and sums the
results, so the algebraic identities proved here are the ones the Python
code computes). Timestamps (`datetime.utcnow`) are modelled as `ℕ` ticks.
Randomness (`uuid.uuid4().hex`, a 32-character lowercase hexadecimal
string) is modelled as an explicit stream of hexadecimal digits passed in
as a parameter.
-/

set_option autoImplicit false

namespace DzPython

/-- The `Supplier` ORM row (dz_python.py lines 38-45); the `products`
relationship is represented on the `Product` side. -/
structure Supplier where
  name : String
  contact_person : Option String
  email : Option String
  phone : Option String
  address : Option String
  deriving DecidableEq, Repr, Inhabited

/-- The `Product` ORM row (dz_python.py lines 47-55). -/
structure Product where
  name : String
  description : Option String
  price : ℚ
  quantity : ℕ
  supplier : Supplier
  deriving DecidableEq, Repr, Inhabited

/-- The `OrderItem` ORM row (dz_python.py lines 67-75); the `order` back
reference is represented by nesting items inside their `Order`. -/
structure OrderItem where
  product : Product
  quantity : ℕ
  unit_price : ℚ
  total_price : ℚ
  deriving DecidableEq, Repr, Inhabited

/-- The `Order` ORM row (dz_python.py lines 57-65) with its `order_items`
relationship inlined and the inherited `created_at` column. -/
structure Order where
  order_number : String
  customer_name : String
  customer_email : Option String
  total_amount : ℚ
  status : String
  created_at : ℕ
  order_items : List OrderItem
  deriving DecidableEq, Repr, Inhabited

/-- The lowercase hexadecimal digit character for a value in `0..15`, as
produced by Python `uuid.uuid4().hex`. -/
def hexCharLower (d : Fin 16) : Char :=
  if d.val < 10 then Char.ofNat (48 + d.val) else Char.ofNat (87 + d.val)

/-- Embeds `generate_order_number` (dz_python.py lines 77-78):
`f"ORD-{uuid.uuid4().hex[:8].upper()}"`. The random draw `uuid4Hex` is the
digit sequence of `uuid.uuid4().hex`; `[:8]` is `List.take 8` and
`.upper()` maps `Char.toUpper` over the (ASCII) slice. -/
def generate_order_number (uuid4Hex : List (Fin 16)) : String :=
  "ORD-" ++ String.mk (((uuid4Hex.take 8).map hexCharLower).map Char.toUpper)

/-- One entry of an order's `"items"` list in `orders_data`
(dz_python.py lines 100-111). -/
structure ItemData where
  product : Product
  quantity : ℕ
  deriving DecidableEq, Repr, Inhabited

/-- One entry of `orders_data` (dz_python.py lines 100-111). -/
structure OrderData where
  customer_name : String
  customer_email : Option String
  items : List ItemData
  deriving DecidableEq, Repr, Inhabited

/-- Body of the inner loop of `fill_with_sample_data`
(dz_python.py lines 122-132): builds one `OrderItem` with
`unit_price = product.price` and `total_price = product.price * quantity`,
appends it to the session, and accumulates `total_amount`. -/
def orderItemStep (acc : List OrderItem × ℚ) (item_data : ItemData) : List OrderItem × ℚ :=
  let item_total : ℚ := item_data.product.price * (item_data.quantity : ℚ)
  (acc.1 ++ [{ product := item_data.product
               quantity := item_data.quantity
               unit_price := item_data.product.price
               total_price := item_total }],
   acc.2 + item_total)

/-- Body of the outer loop of `fill_with_sample_data`
(dz_python.py lines 113-135): constructs the `Order` with
`status="completed"`, runs the item loop starting from `total_amount = 0`,
and stores the accumulated total on the order. -/
def createOrder (orderNumber : String) (createdAt : ℕ) (d : OrderData) : Order :=
  let r := d.items.foldl orderItemStep ([], 0)
  { order_number := orderNumber
    customer_name := d.customer_name
    customer_email := d.customer_email
    total_amount := r.2
    status := "completed"
    created_at := createdAt
    order_items := r.1 }

/-- The `supplier` literal of `fill_with_sample_data`
(dz_python.py lines 87-92). -/
def waosaSupplier : Supplier :=
  { name := "Waosa Supplier"
    contact_person := some "Waosa Manager"
    email := some "manager@waosa.com"
    phone := some "123-456-7890"
    address := none }

/-- The entry `products[0]` of `fill_with_sample_data` (dz_python.py line 95). -/
def productA : Product :=
  { name := "Waosa Product A", description := none, price := 100, quantity := 50,
    supplier := waosaSupplier }

/-- The entry `products[1]` of `fill_with_sample_data` (dz_python.py line 96). -/
def productB : Product :=
  { name := "Waosa Product B", description := none, price := 200, quantity := 30,
    supplier := waosaSupplier }

/-- The entry `products[2]` of `fill_with_sample_data` (dz_python.py line 97). -/
def productC : Product :=
  { name := "Waosa Product C", description := none, price := 150, quantity := 20,
    supplier := waosaSupplier }

/-- The `orders_data` literal of `fill_with_sample_data`
(dz_python.py lines 100-111). -/
def sample_orders_data : List OrderData :=
  [ { customer_name := "Alice Johnson"
      customer_email := some "alice@waosa.com"
      items := [⟨productA, 2⟩, ⟨productB, 1⟩] },
    { customer_name := "Bob Smith"
      customer_email := some "bob@waosa.com"
      items := [⟨productC, 3⟩, ⟨productA, 1⟩] } ]

/-- Embeds `WaosaDataFiller.fill_with_sample_data` (dz_python.py lines 84-143),
returning the orders committed by the single `session.commit()`.
`uuid4Draws i` is the `uuid.uuid4().hex` digit string drawn for the `i`-th
order; `generate_order_number` is called once per order with no check
against existing order numbers. `created_at` for the `i`-th order is the
`datetime.utcnow` tick `t0 + i` (creation order). -/
def fill_with_sample_data (uuid4Draws : ℕ → List (Fin 16)) (t0 : ℕ) : List Order :=
  sample_orders_data.enum.map
    (fun p => createOrder (generate_order_number (uuid4Draws p.1)) (t0 + p.1) p.2)

/-- An OpenDocument text in construction: the sequence of paragraph texts
added so far (`odf` `P` elements, in document order). The binary ODT
encoding performed by `doc.save` is out of scope; the document content is
the paragraph sequence. -/
structure ODTDoc where
  paragraphs : List String
  deriving DecidableEq, Repr, Inhabited

/-- Embeds `doc.text.addElement` of a `P` paragraph with text `s` — appends one paragraph. -/
def addElement (doc : ODTDoc) (s : String) : ODTDoc :=
  ⟨doc.paragraphs ++ [s]⟩

/-- Rendering of `order.total_amount` (a Python float) inside the
f-strings: an integral value `n` prints as `n.0`. -/
def floatText (q : ℚ) : String :=
  if q.den = 1 then toString q.num ++ ".0" else toString q.num ++ "/" ++ toString q.den

/-- Body of the `for order in orders` loop of
`ODTExporter.export_orders_to_odt` (dz_python.py lines 181-194): four
`addElement` calls — order number, customer name, amount/status line, and
an empty separator paragraph. No paragraph for the order's line items is
added. -/
def exportStep (doc : ODTDoc) (o : Order) : ODTDoc :=
  let doc := addElement doc ("Заказ: " ++ o.order_number)
  let doc := addElement doc ("Клиент: " ++ o.customer_name)
  let doc := addElement doc ("Сумма: $" ++ floatText o.total_amount ++ " | Статус: " ++ o.status)
  addElement doc ""

/-- Embeds `ODTExporter.export_orders_to_odt` (dz_python.py lines 172-197):
starts from an empty document, adds the title paragraph and an empty
paragraph (the header block), then runs the per-order loop. -/
def export_orders_to_odt (orders : List Order) : ODTDoc :=
  let doc : ODTDoc := ⟨[]⟩
  let doc := addElement doc "ОТЧЕТ ПО ЗАКАЗАМ"
  let doc := addElement doc ""
  orders.foldl exportStep doc

/-- The four paragraphs the exporter emits for one order, used to state
the shape of the exported document. -/
def orderBlock (o : Order) : List String :=
  ["Заказ: " ++ o.order_number,
   "Клиент: " ++ o.customer_name,
   "Сумма: $" ++ floatText o.total_amount ++ " | Статус: " ++ o.status,
   ""]

/-- Decidable check that the second list starts with the first. -/
def beginsWith : List Char → List Char → Bool
  | [], _ => true
  | _ :: _, [] => false
  | a :: as, b :: bs => a == b && beginsWith as bs

/-- Decidable check that `needle` occurs as a contiguous segment of the
second list. -/
def containsSeg (needle : List Char) : List Char → Bool
  | [] => beginsWith needle []
  | c :: cs => beginsWith needle (c :: cs) || containsSeg needle cs

/-- The table names registered on `Base.metadata` by the four ORM classes
(dz_python.py lines 39, 48, 58, 68). -/
def metadata_tables : List String :=
  ["suppliers", "products", "orders", "order_items"]

/-- The relational store behind the engine: the set of existing tables
(as a list of names) and the persisted rows. -/
structure Store (ρ : Type) where
  tables : List String
  rows : List ρ
  deriving DecidableEq, Repr, Inhabited

/-- Embeds `Base.metadata.create_all(bind=engine)` (dz_python.py line 28).
SQLAlchemy `create_all` checks for each table whether it already exists
(`checkfirst`, the default) and issues `CREATE TABLE` only for the missing
ones; it never touches existing tables or rows. -/
def create_all {ρ : Type} (s : Store ρ) : Store ρ :=
  { s with tables := s.tables ++ metadata_tables.filter (fun t => !(s.tables.contains t)) }

/-- The `DatabaseConnection` state (dz_python.py lines 9-13): `__init__`
leaves `engine` and `SessionLocal` as `None`. The engine and session
factory themselves carry no data relevant to the claims, so presence is
modelled by `Option Unit`. -/
structure DatabaseConnection where
  connection_string : String
  engine : Option Unit
  sessionLocal : Option Unit
  deriving DecidableEq, Repr, Inhabited

/-- Embeds `DatabaseConnection.__init__` (dz_python.py lines 10-13). -/
def DatabaseConnection.mkNew (cs : String) : DatabaseConnection :=
  { connection_string := cs, engine := none, sessionLocal := none }

/-- Embeds `DatabaseConnection.connect` (dz_python.py lines 15-18): sets both the
engine and the session factory. -/
def DatabaseConnection.connect (c : DatabaseConnection) : DatabaseConnection :=
  { c with engine := some (), sessionLocal := some () }

/-- Embeds `DatabaseConnection.get_session` (dz_python.py lines 20-23): connects
first when `SessionLocal` is unset, then returns a session from the
factory (the session handle carries no state relevant to the claims). -/
def DatabaseConnection.get_session (c : DatabaseConnection) : DatabaseConnection × Unit :=
  let c := if c.sessionLocal.isNone then c.connect else c
  (c, ())

/-- Embeds `DatabaseConnection.create_tables` (dz_python.py lines 25-28):
connects first when `engine` is unset, then runs
`Base.metadata.create_all` against the store. -/
def DatabaseConnection.create_tables {ρ : Type} (c : DatabaseConnection) (s : Store ρ) :
    DatabaseConnection × Store ρ :=
  let c := if c.engine.isNone then c.connect else c
  (c, create_all s)

/-- Embeds `OrderManager.get_all_orders` (dz_python.py lines 149-153):
`session.query(Order).all()` issues a `SELECT` with no `ORDER BY` clause,
so the relational backend returns all stored order rows in an unspecified
order: a result is possible exactly when it is a permutation of the stored
rows. -/
def get_all_orders_result (stored res : List Order) : Prop :=
  stored.Perm res

/-- A sequence of orders is ordered by creation time. -/
def sortedByCreation (l : List Order) : Prop :=
  l.Pairwise (fun a b => a.created_at ≤ b.created_at)

/-- A fixed stream of distinct uuid draws used for concrete instances:
the `i`-th draw is 32 copies of hex digit `i mod 16`. -/
def sampleDraws (i : ℕ) : List (Fin 16) :=
  List.replicate 32 (Fin.ofNat i)

/-- The two orders persisted by the sample run
`fill_with_sample_data sampleDraws 0`. -/
def sample_orders : List Order :=
  fill_with_sample_data sampleDraws 0

/-- The first order of the sample run (Alice Johnson's order). -/
def sampleOrder0 : Order := sample_orders.headI

/-- The first line item of the first sample order. -/
def sampleItem0 : OrderItem := sampleOrder0.order_items.headI

/-- Decides that `c` is one of the characters `0-9A-F` (uppercase
hexadecimal). -/
def isUpperHexDigit (c : Char) : Bool :=
  (48 ≤ c.toNat && c.toNat ≤ 57) || (65 ≤ c.toNat && c.toNat ≤ 70)

/-- Holds when `s` matches the pattern `ORD-` followed by exactly 8
uppercase hexadecimal characters. -/
def matchesOrderPattern (s : String) : Prop :=
  ∃ t : List Char, s.data = "ORD-".data ++ t ∧ t.length = 8 ∧ ∀ c ∈ t, isUpperHexDigit c = true

/-- An order whose single line item references catalog product A, used to
exhibit what the exporter emits for an order that has line items. -/
def c6Order : Order :=
  createOrder "ORD-AAAAAAAA" 0
    { customer_name := "Alice Johnson", customer_email := none,
      items := [⟨productA, 2⟩] }

/-- A supplier that is never persisted by the sample workflow. -/
def ghostSupplier : Supplier :=
  { name := "Ghost Supplier", contact_person := none, email := none, phone := none,
    address := none }

/-- A product that is not among the persisted catalog products. -/
def ghostProduct : Product :=
  { name := "Ghost Product", description := none, price := 10, quantity := 0,
    supplier := ghostSupplier }

/-- Order data whose single item references the unpersisted `ghostProduct`. -/
def ghostOrderData : OrderData :=
  { customer_name := "Eve", customer_email := none, items := [⟨ghostProduct, 1⟩] }

/-- A concrete connection in its fresh state, as built by `main`
(dz_python.py line 200). -/
def mainConnection : DatabaseConnection := DatabaseConnection.mkNew "sqlite:///waosa.db"

/-- A concrete store that already has one table and one row, for
exercising schema initialization on a non-empty store. -/
def c8Store : Store ℕ := { tables := ["suppliers"], rows := [1] }

attribute [local semireducible] Rat.add Rat.mul

theorem foldl_orderItemStep_total (l : List ItemData) (acc : List OrderItem × ℚ)
    (h : acc.2 = (acc.1.map (fun i => i.total_price)).sum) :
    (l.foldl orderItemStep acc).2
      = ((l.foldl orderItemStep acc).1.map (fun i => i.total_price)).sum := by
  induction l generalizing acc with
  | nil => exact h
  | cons a t ih =>
      apply ih
      simp [orderItemStep, h]

theorem createOrder_total (n : String) (t : ℕ) (d : OrderData) :
    (createOrder n t d).total_amount
      = ((createOrder n t d).order_items.map (fun i => i.total_price)).sum := by
  simpa [createOrder] using foldl_orderItemStep_total d.items ([], 0) (by simp)

theorem foldl_orderItemStep_items (l : List ItemData) (acc : List OrderItem × ℚ)
    (h : ∀ i ∈ acc.1, i.total_price = (i.quantity : ℚ) * i.unit_price) :
    ∀ i ∈ (l.foldl orderItemStep acc).1, i.total_price = (i.quantity : ℚ) * i.unit_price := by
  induction l generalizing acc with
  | nil => exact h
  | cons a t ih =>
      apply ih
      intro i hi
      simp [orderItemStep] at hi
      rcases hi with hi | hi
      · exact h i hi
      · subst hi
        simp [mul_comm]

theorem createOrder_items (n : String) (t : ℕ) (d : OrderData) :
    ∀ i ∈ (createOrder n t d).order_items, i.total_price = (i.quantity : ℚ) * i.unit_price := by
  simpa [createOrder] using foldl_orderItemStep_items d.items ([], 0) (by simp)

/-- C1: every order persisted by `fill_with_sample_data` has
`total_amount` equal to the sum of the `total_price` of its items. -/
theorem C1_total_amount_eq_sum (uuid4Draws : ℕ → List (Fin 16)) (t0 : ℕ) (o : Order)
    (h : o ∈ fill_with_sample_data uuid4Draws t0) :
    o.total_amount = (o.order_items.map (fun i => i.total_price)).sum := by
  simp only [fill_with_sample_data, List.mem_map] at h
  rcases h with ⟨p, hp, rfl⟩
  exact createOrder_total _ _ _

theorem C1_witness :
    sampleOrder0 ∈ fill_with_sample_data sampleDraws 0
    ∧ sampleOrder0.total_amount = (sampleOrder0.order_items.map (fun i => i.total_price)).sum :=
  ⟨by decide, C1_total_amount_eq_sum sampleDraws 0 sampleOrder0 (by decide)⟩

/-- C2: every persisted order item has `total_price` equal to its
quantity times its `unit_price`. -/
theorem C2_line_total_eq_qty_mul_price (uuid4Draws : ℕ → List (Fin 16)) (t0 : ℕ) (o : Order)
    (ho : o ∈ fill_with_sample_data uuid4Draws t0) (i : OrderItem) (hi : i ∈ o.order_items) :
    i.total_price = (i.quantity : ℚ) * i.unit_price := by
  simp only [fill_with_sample_data, List.mem_map] at ho
  rcases ho with ⟨p, hp, rfl⟩
  exact createOrder_items _ _ _ i hi

theorem C2_witness :
    (sampleOrder0 ∈ fill_with_sample_data sampleDraws 0 ∧ sampleItem0 ∈ sampleOrder0.order_items)
    ∧ sampleItem0.total_price = (sampleItem0.quantity : ℚ) * sampleItem0.unit_price :=
  ⟨⟨by decide, by decide⟩,
   C2_line_total_eq_qty_mul_price sampleDraws 0 sampleOrder0 (by decide) sampleItem0 (by decide)⟩

/-- C3: when the two uuid draws collide (here both all-zero), the code
assigns both persisted orders the same order number — no uniqueness check
or retry happens. -/
theorem C3_collision_accepted :
    (fill_with_sample_data (fun _ => List.replicate 32 0) 0).map (fun o => o.order_number)
      = ["ORD-00000000", "ORD-00000000"] := by decide

theorem upper_hexCharLower (d : Fin 16) :
    isUpperHexDigit (Char.toUpper (hexCharLower d)) = true := by revert d; decide

/-- C4: every generated order number is the literal `ORD-` followed by
exactly 8 uppercase hexadecimal characters. -/
theorem C4_order_number_pattern (uuid4Hex : List (Fin 16)) (h : 8 ≤ uuid4Hex.length) :
    matchesOrderPattern (generate_order_number uuid4Hex) := by
  refine ⟨((uuid4Hex.take 8).map hexCharLower).map Char.toUpper, ?_, ?_, ?_⟩
  · rfl
  · simp [List.length_take]
    omega
  · intro c hc
    rcases List.mem_map.mp hc with ⟨b, hb, rfl⟩
    rcases List.mem_map.mp hb with ⟨d, hd, rfl⟩
    exact upper_hexCharLower d

theorem C4_witness :
    8 ≤ (sampleDraws 0).length ∧ matchesOrderPattern (generate_order_number (sampleDraws 0)) :=
  ⟨by decide, C4_order_number_pattern (sampleDraws 0) (by decide)⟩

/-- C5: the order for [(A, qty=2), (B, qty=1)] totals 400 and the order
for [(C, qty=3), (A, qty=1)] totals 550. -/
theorem C5_sample_totals (uuid4Draws : ℕ → List (Fin 16)) (t0 : ℕ) :
    (fill_with_sample_data uuid4Draws t0).map (fun o => o.total_amount) = [400, 550] := by
  simp [fill_with_sample_data, sample_orders_data, createOrder, orderItemStep, List.enum,
    productA, productB, productC]
  norm_num

theorem export_foldl (orders : List Order) (doc : ODTDoc) :
    (orders.foldl exportStep doc).paragraphs = doc.paragraphs ++ orders.flatMap orderBlock := by
  induction orders generalizing doc with
  | nil => simp
  | cons o t ih => simp [ih, exportStep, addElement, orderBlock]

/-- C6 (amended): the exported document is the header block (title
paragraph and empty paragraph) followed by exactly one four-paragraph
block per order, in input order, each block holding the order number,
customer, amount and status; line items do not appear. An empty input
yields just the header. -/
theorem C6_export_shape (orders : List Order) :
    (export_orders_to_odt orders).paragraphs
      = ["ОТЧЕТ ПО ЗАКАЗАМ", ""] ++ orders.flatMap orderBlock := by
  simp [export_orders_to_odt, addElement, export_foldl]

/-- C6 (counterexample): `c6Order` has a line item for product
"Waosa Product A", yet no paragraph of the exported document mentions that
product — the claim that each order block contains the order's line items
is false. -/
theorem C6_counterexample :
    c6Order.order_items.map (fun i => i.product.name) = ["Waosa Product A"]
    ∧ ((export_orders_to_odt [c6Order]).paragraphs.all
        (fun p => !(containsSeg "Waosa Product A".data p.data))) = true := by
  constructor
  · decide
  · decide

/-- C7: the order-creation loop performs no product-existence check and
has no failure path: applied to an item whose product is not among the
persisted catalog products it still builds and persists the order item
and computes a total. -/
theorem C7_no_product_validation :
    ghostProduct ∉ [productA, productB, productC]
    ∧ (createOrder "ORD-FFFFFFFF" 0 ghostOrderData).order_items.map (fun i => i.product.name)
        = ["Ghost Product"]
    ∧ (createOrder "ORD-FFFFFFFF" 0 ghostOrderData).total_amount = 10 := by
  refine ⟨by decide, by decide, by decide⟩

theorem mem_create_all_tables {ρ : Type} (s : Store ρ) (t : String)
    (ht : t ∈ metadata_tables) : t ∈ (create_all s).tables := by
  by_cases hc : t ∈ s.tables
  · exact List.mem_append_left _ hc
  · apply List.mem_append_right
    refine List.mem_filter.mpr ⟨ht, ?_⟩
    simp [hc]

theorem create_all_idem {ρ : Type} (s : Store ρ) : create_all (create_all s) = create_all s := by
  have hnil : metadata_tables.filter (fun t => !((create_all s).tables.contains t)) = [] := by
    refine List.filter_eq_nil_iff.mpr ?_
    intro a ha
    simp [mem_create_all_tables s a ha]
  show ({ tables := (create_all s).tables
            ++ metadata_tables.filter (fun t => !((create_all s).tables.contains t)),
          rows := (create_all s).rows } : Store ρ) = create_all s
  rw [hnil]
  simp

theorem create_all_nodup {ρ : Type} (s : Store ρ) (h : s.tables.Nodup) :
    (create_all s).tables.Nodup := by
  refine List.Nodup.append h (List.Nodup.filter _ (by decide)) ?_
  intro a ha hfa
  have hp := (List.mem_filter.mp hfa).2
  simp [ha] at hp

/-- C8: schema initialization is idempotent — a second `create_tables`
call leaves the store exactly as the first left it, the first call never
touches the rows, and it introduces no duplicate tables. -/
theorem C8_create_tables_idempotent {ρ : Type} (c : DatabaseConnection) (s : Store ρ)
    (h : s.tables.Nodup) :
    ((c.create_tables s).1.create_tables (c.create_tables s).2).2 = (c.create_tables s).2
    ∧ (c.create_tables s).2.rows = s.rows
    ∧ (c.create_tables s).2.tables.Nodup :=
  ⟨create_all_idem s, rfl, create_all_nodup s h⟩

theorem C8_witness :
    c8Store.tables.Nodup
    ∧ (((mainConnection.create_tables c8Store).1.create_tables
          (mainConnection.create_tables c8Store).2).2 = (mainConnection.create_tables c8Store).2
        ∧ (mainConnection.create_tables c8Store).2.rows = c8Store.rows
        ∧ (mainConnection.create_tables c8Store).2.tables.Nodup) :=
  ⟨by decide, C8_create_tables_idempotent mainConnection c8Store (by decide)⟩

/-- C9 (amended): `get_all_orders` returns all persisted orders — every
possible result of the unordered `SELECT` contains exactly the stored
orders. -/
theorem C9_returns_all_orders (stored res : List Order)
    (h : get_all_orders_result stored res) (o : Order) : o ∈ res ↔ o ∈ stored :=
  h.mem_iff.symm

theorem C9_witness :
    get_all_orders_result sample_orders sample_orders.reverse
    ∧ (sampleOrder0 ∈ sample_orders.reverse ↔ sampleOrder0 ∈ sample_orders) :=
  ⟨(List.reverse_perm sample_orders).symm,
   C9_returns_all_orders sample_orders sample_orders.reverse
     ((List.reverse_perm sample_orders).symm) sampleOrder0⟩

/-- C9 (counterexample): the query issues no ORDER BY, so the reversed
row order is a possible result of `get_all_orders` on the sample store
even though it is not ordered by creation time (while the store itself,
with creation ticks 0 and 1, is). -/
theorem C9_counterexample :
    get_all_orders_result sample_orders sample_orders.reverse
    ∧ sortedByCreation sample_orders
    ∧ ¬ sortedByCreation sample_orders.reverse := by
  refine ⟨(List.reverse_perm sample_orders).symm, ?_, ?_⟩
  · unfold sortedByCreation
    decide
  · unfold sortedByCreation
    decide

/-- C10: on a connection whose engine and session factory are unset (the
`__init__` state), both `get_session` and `create_tables` connect first,
leaving engine and session factory initialized. -/
theorem C10_auto_connect {ρ : Type} (c : DatabaseConnection) (s : Store ρ)
    (h1 : c.engine = none) (h2 : c.sessionLocal = none) :
    (c.get_session.1.engine.isSome ∧ c.get_session.1.sessionLocal.isSome)
    ∧ ((c.create_tables s).1.engine.isSome ∧ (c.create_tables s).1.sessionLocal.isSome) := by
  simp [DatabaseConnection.get_session, DatabaseConnection.create_tables,
    DatabaseConnection.connect, h1, h2]

theorem C10_witness :
    (mainConnection.engine = none ∧ mainConnection.sessionLocal = none)
    ∧ ((mainConnection.get_session.1.engine.isSome
          ∧ mainConnection.get_session.1.sessionLocal.isSome)
        ∧ ((mainConnection.create_tables c8Store).1.engine.isSome
            ∧ (mainConnection.create_tables c8Store).1.sessionLocal.isSome)) :=
  ⟨⟨rfl, rfl⟩, C10_auto_connect mainConnection c8Store rfl rfl⟩

end DzPython
